import Mathlib

/-!
Verification development for the CareerGenie single-page client
(`src/frontend/src/App.js`).  The definitions below are a shallow
embedding of the client's interactive logic: the `AuthProvider`
session store, the route guards in `LandingPage` and `Dashboard`, the
`Dashboard` data fetchers, the `AssessmentForm` submission and toggle
handlers, the `RecommendationsView` generation, and the
`ChatInterface` send path.  Each definition is translated directly
from the corresponding JavaScript; theorems then settle the spec's
claims against these definitions.
-/

namespace CareerGenie

/-- A JSON-ish value as it appears in the request/response bodies the
client builds: form fields are strings, string lists, or maps of
subject to grade. -/
inductive Value where
  | str : String → Value
  | strList : List String → Value
  | strMap : List (String × String) → Value
deriving DecidableEq

/-- The authenticated user record (`response.data.user`); opaque beyond
display use. -/
structure Principal where
  id : String
  name : String
  email : String
deriving DecidableEq

/-! ## Session store (`AuthProvider`, App.js lines 47-77)

`AuthProvider` holds `user` (initially `null`) and `token` (initially
`localStorage.getItem('token')`).  `login` sets both, persists the
token, and arms the axios default `Authorization` header; `logout`
clears both, erases the persisted token, and disarms the header.  The
state below carries the in-memory pair plus the persisted
`localStorage` slot keyed `'token'`. -/

structure AuthState where
  user : Option Principal
  token : Option String
  storage : Option String
deriving DecidableEq

/-- Process start: `useState(null)` for the user and
`useState(localStorage.getItem('token'))` for the token.  Whatever
token was persisted is restored into `token`; the user is `null`. -/
def initAuth (persisted : Option String) : AuthState :=
  { user := none, token := persisted, storage := persisted }

/-- `login(userData, userToken)` (App.js lines 58-63): sets the user
and the token, writes the token to `localStorage`. -/
def loginAuth (_s : AuthState) (userData : Principal) (userToken : String) : AuthState :=
  { user := some userData, token := some userToken, storage := some userToken }

/-- `logout()` (App.js lines 65-70): clears the user and the token and
removes the persisted token. -/
def logoutAuth (_s : AuthState) : AuthState :=
  { user := none, token := none, storage := none }

/-- The axios default `Authorization` header value as armed by the
`useEffect` on `token` and by `login`: `Bearer <token>` whenever a
token is present, absent otherwise. -/
def armedHeader (s : AuthState) : Option String :=
  s.token.map (fun t => "Bearer " ++ t)

/-- The session states the client can reach: process start with any
persisted token (the restore path), then any interleaving of
successful logins and logouts. -/
inductive AuthReachable : AuthState → Prop where
  | init : ∀ persisted, AuthReachable (initAuth persisted)
  | login : ∀ s u t, AuthReachable s → AuthReachable (loginAuth s u t)
  | logout : ∀ s, AuthReachable s → AuthReachable (logoutAuth s)

/-! ## Route guard (`LandingPage` line 92-94, `Dashboard` line 492-494)

`LandingPage` renders `<Navigate to="/dashboard" />` when `user` is
set; `Dashboard` renders `<Navigate to="/" />` when `user` is not
set.  Both guards read only `user`, never `token`. -/

/-- The two routes of the `BrowserRouter`. -/
inductive View where
  | landing
  | dashboard
deriving DecidableEq

/-- The view actually shown when `v` is requested, per the guards in
`LandingPage` and `Dashboard`: both test `user` presence only. -/
def routeGuard (user : Option Principal) (v : View) : View :=
  match v with
  | .landing => if user.isSome then .dashboard else .landing
  | .dashboard => if user.isSome then .dashboard else .landing

/-- One conversation turn as the client builds and renders it:
`{ message, response, timestamp }`. -/
structure Turn where
  message : String
  response : String
  timestamp : Nat
deriving DecidableEq

/-! ## Chat send path (`Dashboard.sendChatMessage` App.js lines 468-490,
`ChatInterface` App.js lines 851-918)

`sendChatMessage` returns immediately when the trimmed input is empty;
otherwise it sets `isLoading` and issues the request; the `finally`
block clears `isLoading` when the request settles either way.  The
send button is `disabled={isLoading || !input.trim()}` and the textarea
is `disabled={isLoading}`, so while a send is outstanding neither the
button click nor the Enter keystroke handler can fire.  `handleKeyPress`
sends on Enter without Shift and otherwise lets the keystroke edit the
text.  The state below adds an `inFlight` counter of outstanding send
requests to make serialization provable. -/

structure ChatState where
  input : String
  isLoading : Bool
  inFlight : Nat
  messages : List Turn
deriving DecidableEq

/-- `sendChatMessage` as invoked: `if (!chatInput.trim()) return;` then
`setIsLoading(true)` and the POST goes out (one more request in
flight). -/
def sendChatMessage (st : ChatState) : ChatState :=
  if st.input.trim = "" then st
  else { st with isLoading := true, inFlight := st.inFlight + 1 }

/-- A click on the send button: it is `disabled={isLoading || !input.trim()}`,
so the click reaches `onSend` only when enabled. -/
def clickSendButton (st : ChatState) : ChatState :=
  if st.isLoading ∨ st.input.trim = "" then st else sendChatMessage st

/-- A keystroke in the textarea: the textarea is `disabled={isLoading}`
so no key event fires while loading; `handleKeyPress` calls `onSend()`
on Enter without Shift and otherwise the keystroke is an ordinary
edit (modelled as leaving the state to `typeInput`). -/
def pressKey (st : ChatState) (key : String) (shift : Bool) : ChatState :=
  if st.isLoading then st
  else if key = "Enter" ∧ shift = false then sendChatMessage st
  else st

/-- An ordinary input edit (`onChange` setting `chatInput`); the
textarea is disabled while loading. -/
def typeInput (st : ChatState) (text : String) : ChatState :=
  if st.isLoading then st else { st with input := text }

/-- The outstanding send settles successfully: the new turn (echoed
input, reply, client timestamp) is appended, the input is cleared, and
the `finally` block clears `isLoading`. -/
def settleSendOk (st : ChatState) (reply : String) (ts : Nat) : ChatState :=
  { st with messages := st.messages ++ [⟨st.input, reply, ts⟩]
            input := ""
            isLoading := false
            inFlight := st.inFlight - 1 }

/-- The outstanding send settles with an error: the `catch` only logs,
the input is preserved, and the `finally` block clears `isLoading`. -/
def settleSendErr (st : ChatState) : ChatState :=
  { st with isLoading := false, inFlight := st.inFlight - 1 }

/-- The chat state at Dashboard mount: empty input, not loading,
nothing in flight, no messages. -/
def initChat : ChatState :=
  { input := "", isLoading := false, inFlight := 0, messages := [] }

/-- The chat states reachable from mount by any interleaving of user
triggers and settlements of outstanding requests (a settlement event
presupposes an outstanding request). -/
inductive ChatReachable : ChatState → Prop where
  | init : ChatReachable initChat
  | click : ∀ st, ChatReachable st → ChatReachable (clickSendButton st)
  | keystroke : ∀ st k sh, ChatReachable st → ChatReachable (pressKey st k sh)
  | edit : ∀ st text, ChatReachable st → ChatReachable (typeInput st text)
  | settleOk : ∀ st reply ts, ChatReachable st → 0 < st.inFlight →
      ChatReachable (settleSendOk st reply ts)
  | settleErr : ∀ st, ChatReachable st → 0 < st.inFlight →
      ChatReachable (settleSendErr st)

/-! ## Assessment form (`AssessmentForm`, App.js lines 569-765)

The form state holds eight fields.  `handleSubmit` posts
`{...formData, user_id: 'current_user'}` unconditionally — there is no
local validation of any field — and on success passes the bare
`formData` (no `user_id`) to `onProfileUpdate`.  The interest and
strength checkboxes toggle membership: checking appends the value,
unchecking filters it out, and the rendered `checked` state is
`formData.interests.includes(interest)`. -/

structure FormData where
  academic_level : String
  current_class : String
  stream : String
  subjects : List String
  grades : List (String × String)
  interests : List String
  strengths : List String
  career_goals : String
deriving DecidableEq

/-- The form state at mount (App.js lines 570-579): every field empty. -/
def initialFormData : FormData :=
  { academic_level := ""
    current_class := ""
    stream := ""
    subjects := []
    grades := []
    interests := []
    strengths := []
    career_goals := "" }

/-- The three values offered by the academic-level `Select`
(App.js lines 632-636). -/
def academicLevelOptions : List String :=
  ["high_school", "undergraduate", "postgraduate"]

/-- The eight own fields of `formData`, as the key-value object they
spread into. -/
def formDataFields (fd : FormData) : List (String × Value) :=
  [("academic_level", Value.str fd.academic_level),
   ("current_class", Value.str fd.current_class),
   ("stream", Value.str fd.stream),
   ("subjects", Value.strList fd.subjects),
   ("grades", Value.strMap fd.grades),
   ("interests", Value.strList fd.interests),
   ("strengths", Value.strList fd.strengths),
   ("career_goals", Value.str fd.career_goals)]

/-- The body `handleSubmit` posts to `/profile` (App.js lines 587-590):
`{...formData, user_id: 'current_user'}` — the spread of the eight form
fields plus the literal `user_id`. -/
def savePayload (fd : FormData) : List (String × Value) :=
  formDataFields fd ++ [("user_id", Value.str "current_user")]

/-- The request `handleSubmit` issues, if any.  The handler posts on
every submission — it never reads the session (the component does not
use the auth context, though it runs under one) and performs no local
validation before transmitting. -/
def handleSubmitRequest (_session : AuthState) (fd : FormData) :
    Option (List (String × Value)) :=
  some (savePayload fd)

/-- The in-memory profile passed downstream on success
(`onProfileUpdate(formData)`, App.js line 592): the bare form data
without `user_id`. -/
def profileAfterSave (fd : FormData) : List (String × Value) :=
  formDataFields fd

/-- A checkbox `onCheckedChange` handler for `interests` / `strengths`
(App.js lines 690-702 and 720-732): checking appends the value to the
list, unchecking keeps exactly the entries different from it. -/
def toggleValue (selected : List String) (v : String) (checked : Bool) : List String :=
  if checked then selected ++ [v] else selected.filter (fun i => i != v)

/-- One user click on the checkbox for `v`: its rendered state is
`selected.includes(v)`, so the click fires `onCheckedChange` with the
negation of current membership. -/
def toggleClick (selected : List String) (v : String) : List String :=
  toggleValue selected v (!(selected.contains v))

/-! ## Recommendation stage (`RecommendationsView`, App.js lines 768-848)

`recommendations` is component state, initially `null`.
`generateRecommendations` returns immediately when `profile` is null;
otherwise it destructures `{user_id, updated_at, ...profileData}` from
the profile and posts `profileData`; both the generate button and the
regenerate button have `onClick={generateRecommendations}` — the same
function.  Nothing in the component clears `recommendations` when the
`profile` prop changes after a save. -/

structure RecState where
  profile : Option (List (String × Value))
  recommendations : Option String
  recLoading : Bool

/-- The payload derivation in `generateRecommendations` (App.js line
778): `const {user_id, updated_at, ...profileData} = profile` keeps
every field except `user_id` and `updated_at`. -/
def derivePayload (profile : List (String × Value)) : List (String × Value) :=
  profile.filter (fun kv => kv.1 != "user_id" && kv.1 != "updated_at")

/-- The payload the generate button's click produces: its `onClick` is
`generateRecommendations`. -/
def generateButtonPayload : List (String × Value) → List (String × Value) :=
  derivePayload

/-- The payload the regenerate button's click produces: its `onClick`
is the same `generateRecommendations` function. -/
def regenerateButtonPayload : List (String × Value) → List (String × Value) :=
  derivePayload

/-- A successful save seen from the recommendation stage: `Dashboard`'s
`setProfile` (via `onProfileUpdate`) replaces the `profile` prop with
the submitted form data; no code touches `recommendations`. -/
def saveProfileSuccess (st : RecState) (fd : FormData) : RecState :=
  { st with profile := some (formDataFields fd) }

/-- `generateRecommendations` invocation (App.js lines 772-787): no-op
when no profile exists, otherwise the request goes out and
`isLoading` is set. -/
def generateRecommendations (st : RecState) : RecState :=
  match st.profile with
  | none => st
  | some _ => { st with recLoading := true }

/-- The analyze request settles successfully: `setRecommendations(response.data)`
then `finally` clears the loading flag. -/
def generateSuccess (st : RecState) (analysis : String) : RecState :=
  { st with recommendations := some analysis, recLoading := false }

/-- The analyze request settles with an error: an alert is shown, the
cached recommendation is untouched, and `finally` clears the flag. -/
def generateFailure (st : RecState) : RecState :=
  { st with recLoading := false }

/-- What the view presents (App.js lines 789-846): with no profile, the
placeholder card; with a profile, the cached `recommendations.analysis`
whenever `recommendations` is non-null. -/
def presentedRecommendation (st : RecState) : Option String :=
  if st.profile.isSome then st.recommendations else none

end CareerGenie

namespace CareerGenie

/-- C1: the claim as stated is false.  At process start with a
persisted token `"t"` (the restore path), the reachable state has
`token` present but `user` absent: `useState(localStorage.getItem('token'))`
restores only the token, and nothing restores the principal, so the
`principal`-iff-`token` invariant is violated in a reachable state. -/
theorem c1_counterexample :
    AuthReachable (initAuth (some "t")) ∧
      ¬(((initAuth (some "t")).user.isSome) ↔ ((initAuth (some "t")).token.isSome)) :=
  ⟨AuthReachable.init (some "t"), by decide⟩

/-- C1 (amended): in every reachable session state, a present
`principal` implies a present `token`; the converse fails only on the
restore path.  Creation with no persisted token satisfies the full
iff-invariant, and login and logout each establish it atomically; only
restore from a persisted token yields `token` present without
`principal`. -/
theorem c1_session_invariant_amended :
    (∀ s, AuthReachable s → (s.user.isSome → s.token.isSome)) ∧
      (((initAuth none).user.isSome) ↔ ((initAuth none).token.isSome)) ∧
      (∀ s u t, ((loginAuth s u t).user.isSome) ↔ ((loginAuth s u t).token.isSome)) ∧
      (∀ s, ((logoutAuth s).user.isSome) ↔ ((logoutAuth s).token.isSome)) := by
  refine ⟨?_, by decide, fun s u t => by simp [loginAuth], fun s => by simp [logoutAuth]⟩
  intro s h
  induction h with
  | init persisted => simp [initAuth]
  | login s u t _ _ => simp [loginAuth]
  | logout s _ _ => simp [logoutAuth]

/-- Witness for the amended C1: the initial state with no persisted
token is reachable and the one-directional invariant holds there. -/
theorem c1_witness :
    (initAuth none).user.isSome → (initAuth none).token.isSome :=
  c1_session_invariant_amended.1 (initAuth none) (AuthReachable.init none)

/-- C3: the claim as stated is false.  After restore finds a persisted
token `"tok"`, the session holds the token (and the bearer header is
armed), but the route guard is a function of `user` presence only and
`user` is still `null`; so the protected dashboard view is redirected
to the landing view rather than allowed, and the landing view is not
redirected to the dashboard. -/
theorem c3_counterexample :
    (initAuth (some "tok")).token.isSome ∧
      routeGuard (initAuth (some "tok")).user View.dashboard ≠ View.dashboard ∧
      routeGuard (initAuth (some "tok")).user View.landing ≠ View.dashboard :=
  by decide

/-! ## Dashboard data fetchers (App.js lines 450-466)

`fetchProfile` and `fetchChatHistory` run once on mount.  On success,
`fetchChatHistory` stores `response.data.reverse()` into
`chatMessages`; on any error — including an authorization failure —
the `catch` block only logs (`console.log('No chat history found')`)
and changes nothing: no session clear, no redirect.  `fetchProfile`
behaves the same way for the profile. -/

/-- The failure modes a request can settle with, as far as the client
could distinguish them (`error.response` status). -/
inductive ApiError where
  | authorization
  | transport
deriving DecidableEq

/-- The client state the Dashboard fetchers touch: the session plus
the `chatMessages` and `profile` component state. -/
structure ClientState where
  auth : AuthState
  chatMessages : List Turn
  profile : Option (List (String × Value))
deriving DecidableEq

/-- `fetchChatHistory` (App.js lines 459-466): on success the state
takes `response.data.reverse()` as `chatMessages`; on any error the
`catch` block only logs and the state is unchanged. -/
def fetchChatHistory (st : ClientState) (result : Except ApiError (List Turn)) : ClientState :=
  match result with
  | .ok data => { st with chatMessages := data.reverse }
  | .error _ => st

/-- `fetchProfile` (App.js lines 450-457): on success the state takes
`response.data` as `profile`; on any error the `catch` block only logs
and the state is unchanged. -/
def fetchProfile (st : ClientState) (result : Except ApiError (List (String × Value))) :
    ClientState :=
  match result with
  | .ok data => { st with profile := some data }
  | .error _ => st

/-- The turns `ChatInterface` renders (App.js lines 873-897): the
`chatMessages` list in order, mapped over directly. -/
def renderedTurns (st : ClientState) : List Turn :=
  st.chatMessages

/-- A concrete logged-in client state used to exercise the fetchers. -/
def loggedInState : ClientState :=
  { auth := loginAuth (initAuth none) ⟨"1", "Priya", "p@x.in"⟩ "tok"
    chatMessages := []
    profile := none }

/-- C2: the claim as stated is false.  When `loadHistory()` fails with
an authorization failure in a logged-in state, the client does not
clear the session and does not redirect: the `catch` block only logs,
the token and principal stay present, the persisted token stays in
storage, and the route guard still resolves the dashboard view.  (No
chat turns are rendered, but only because the message list was already
empty.) -/
theorem c2_counterexample :
    (fetchChatHistory loggedInState (Except.error ApiError.authorization)).auth.token
        = some "tok" ∧
      (fetchChatHistory loggedInState (Except.error ApiError.authorization)).auth.user.isSome ∧
      (fetchChatHistory loggedInState (Except.error ApiError.authorization)).auth.storage
        = some "tok" ∧
      routeGuard (fetchChatHistory loggedInState (Except.error ApiError.authorization)).auth.user
          View.dashboard = View.dashboard :=
  by decide

/-- C2 (amended): every failure of `loadHistory()` (authorization or
transport) is swallowed by the `catch` block: the entire client state
— session, persisted token, chat messages, profile — is left exactly
as it was, so no session clear and no redirect occur; the rendered
turn list is whatever it already was (empty at mount, hence no turns
rendered then).  `fetchProfile` failures behave the same way. -/
theorem c2_history_failure_amended (st : ClientState) (e : ApiError) :
    fetchChatHistory st (Except.error e) = st ∧
      renderedTurns (fetchChatHistory st (Except.error e)) = renderedTurns st ∧
      fetchProfile st (Except.error e) = st := by
  refine ⟨rfl, rfl, rfl⟩

/-- C6: the claim as stated is false.  The client reverses the
transport order unconditionally; when the endpoint returns the turns
oldest-first (timestamps 1 then 2), the displayed list puts the later
turn first, so the earliest turn is not displayed first for every
transport order. -/
theorem c6_counterexample :
    ¬ List.Sorted (fun a b => a.timestamp ≤ b.timestamp)
        (renderedTurns (fetchChatHistory loggedInState
          (Except.ok [⟨"a", "r1", 1⟩, ⟨"b", "r2", 2⟩]))) := by
  decide

/-- C6 (amended): the client's display order is exactly the reverse of
the transport order (`response.data.reverse()`); consequently the
earliest turn is displayed first precisely when the transport returns
the turns newest-first (non-increasing timestamps), which is the order
the history endpoint uses. -/
theorem c6_display_order_amended (st : ClientState) (data : List Turn)
    (h : List.Sorted (fun a b => b.timestamp ≤ a.timestamp) data) :
    renderedTurns (fetchChatHistory st (Except.ok data)) = data.reverse ∧
      List.Sorted (fun a b => a.timestamp ≤ b.timestamp)
        (renderedTurns (fetchChatHistory st (Except.ok data))) := by
  refine ⟨rfl, ?_⟩
  show List.Sorted _ data.reverse
  rw [List.Sorted, List.pairwise_reverse]
  exact h

/-- Witness for the amended C6: a concrete newest-first history of two
turns is displayed oldest-first. -/
theorem c6_witness :
    renderedTurns (fetchChatHistory loggedInState
        (Except.ok [⟨"b", "r2", 2⟩, ⟨"a", "r1", 1⟩]))
      = [⟨"a", "r1", 1⟩, ⟨"b", "r2", 2⟩] ∧
      List.Sorted (fun a b => a.timestamp ≤ b.timestamp)
        (renderedTurns (fetchChatHistory loggedInState
          (Except.ok [⟨"b", "r2", 2⟩, ⟨"a", "r1", 1⟩]))) :=
  ⟨rfl, (c6_display_order_amended loggedInState [⟨"b", "r2", 2⟩, ⟨"a", "r1", 1⟩]
    (by decide)).2⟩

/-- C3 (amended): after `restore()` finds a persisted token, the
session holds that token and the outgoing-request bearer header is
armed with it, but the principal is absent; the route guard, a pure
function of principal presence, therefore redirects the protected
dashboard view to the landing view and leaves the anonymous landing
view in place. -/
theorem c3_restore_route_amended (t : String) :
    (initAuth (some t)).token = some t ∧
      armedHeader (initAuth (some t)) = some ("Bearer " ++ t) ∧
      (initAuth (some t)).user = none ∧
      routeGuard (initAuth (some t)).user View.dashboard = View.landing ∧
      routeGuard (initAuth (some t)).user View.landing = View.landing := by
  refine ⟨rfl, rfl, rfl, rfl, rfl⟩

/-- In every reachable chat state the number of outstanding send
requests matches the `isLoading` flag: one while loading, zero
otherwise. -/
theorem chat_inFlight_eq_isLoading (st : ChatState) (h : ChatReachable st) :
    st.inFlight = if st.isLoading then 1 else 0 := by
  induction h with
  | init => rfl
  | click s hs ih =>
    by_cases hL : s.isLoading
    · simp [clickSendButton, hL, ih]
    · by_cases hT : s.input.trim = ""
      · simp [clickSendButton, hT, hL, ih]
      · have h0 : s.inFlight = 0 := by simpa [hL] using ih
        simp [clickSendButton, sendChatMessage, hL, hT, h0]
  | keystroke s k sh hs ih =>
    by_cases hL : s.isLoading
    · simp [pressKey, hL, ih]
    · by_cases hE : k = "Enter" ∧ sh = false
      · by_cases hT : s.input.trim = ""
        · simp [pressKey, hL, hE, sendChatMessage, hT, ih]
        · have h0 : s.inFlight = 0 := by simpa [hL] using ih
          simp [pressKey, hL, hE, sendChatMessage, hT, h0]
      · simp [pressKey, hL, hE, ih]
  | edit s text hs ih =>
    by_cases hL : s.isLoading
    · simp [typeInput, hL, ih]
    · simp [typeInput, hL, ih]
  | settleOk s reply ts hs hp ih =>
    have hL : s.isLoading := by
      by_contra hL
      simp [hL] at ih
      omega
    have h1 : s.inFlight = 1 := by simpa [hL] using ih
    simp [settleSendOk, h1]
  | settleErr s hs hp ih =>
    have hL : s.isLoading := by
      by_contra hL
      simp [hL] at ih
      omega
    have h1 : s.inFlight = 1 := by simpa [hL] using ih
    simp [settleSendErr, h1]

/-- C4: conversation sends are strictly serialized.  In every
reachable chat state at most one send is in flight, and while one is
outstanding (`inFlight > 0`, which by the loading invariant means
`isLoading` is set) both triggers — the send button click and any
keystroke, Enter included — leave the state unchanged, so no second
request can be issued until the first settles with success or
failure. -/
theorem c4_send_serialized (st : ChatState) (h : ChatReachable st) :
    st.inFlight ≤ 1 ∧
      (0 < st.inFlight →
        clickSendButton st = st ∧ ∀ k sh, pressKey st k sh = st) := by
  have hinv := chat_inFlight_eq_isLoading st h
  constructor
  · split at hinv <;> omega
  · intro hp
    have hL : st.isLoading := by
      by_contra hL
      simp [hL] at hinv
      omega
    exact ⟨by simp [clickSendButton, hL], fun k sh => by simp [pressKey, hL]⟩

/-- Witness for C4 at the mount state: it is reachable, has no send in
flight (hence at most one), and the trigger no-op guarantee holds
vacuously there. -/
theorem c4_witness :
    initChat.inFlight ≤ 1 ∧
      (0 < initChat.inFlight →
        clickSendButton initChat = initChat ∧
          ∀ k sh, pressKey initChat k sh = initChat) :=
  c4_send_serialized initChat ChatReachable.init

/-- C5: the claim as stated is false.  In a view presenting a cached
recommendation, a successful `save()` of an edited profile (here the
academic level changes to `high_school`) leaves `recommendations`
untouched — nothing in `RecommendationsView` or `Dashboard` clears it
when the profile prop changes — so the previously cached
recommendation is still presented after the save. -/
theorem c5_counterexample :
    presentedRecommendation
        (saveProfileSuccess
          { profile := some (formDataFields initialFormData)
            recommendations := some "old analysis"
            recLoading := false }
          { initialFormData with academic_level := "high_school" })
      = some "old analysis" :=
  rfl

/-- C5 (amended): a successful save replaces the profile passed to the
recommendation view but does not invalidate the cached recommendation,
which remains presented; the cache is replaced only when a
generate/regenerate request completes successfully (a failed one
leaves it untouched as well). -/
theorem c5_cache_not_invalidated_amended (st : RecState) (fd : FormData) (a : String) :
    (saveProfileSuccess st fd).recommendations = st.recommendations ∧
      (saveProfileSuccess st fd).profile = some (formDataFields fd) ∧
      presentedRecommendation (saveProfileSuccess st fd) = st.recommendations ∧
      (generateSuccess st a).recommendations = some a ∧
      (generateFailure st).recommendations = st.recommendations := by
  refine ⟨rfl, rfl, ?_, rfl, rfl⟩
  simp [presentedRecommendation, saveProfileSuccess]

/-- C7 (confirmed): the regenerate button dispatches the very same
derivation as the generate button (`onClick={generateRecommendations}`
on both), so for a fixed profile the two derived payloads are equal;
and the derivation keeps exactly the profile fields whose key is
neither `user_id` nor `updated_at`.  Since the derivation is a pure
function of the profile, two invocations without an intervening save
trivially produce identical payloads. -/
theorem c7_regenerate_same_derivation (profile : List (String × Value))
    (k : String) (v : Value) :
    regenerateButtonPayload profile = generateButtonPayload profile ∧
      ((k, v) ∈ generateButtonPayload profile ↔
        ((k, v) ∈ profile ∧ k ≠ "user_id" ∧ k ≠ "updated_at")) := by
  refine ⟨rfl, ?_⟩
  simp [generateButtonPayload, derivePayload, List.mem_filter, and_assoc]

/-- C8: the claim as stated is false.  `handleSubmit` performs no
local validation: at the initial form state, whose `academic_level` is
the empty string — not one of the enumerated values — a save request
is still issued carrying that profile. -/
theorem c8_counterexample :
    handleSubmitRequest (initAuth none) initialFormData
        = some (savePayload initialFormData) ∧
      initialFormData.academic_level ∉ academicLevelOptions :=
  ⟨rfl, by decide⟩

/-- C8 (amended): `handleSubmit` transmits every submission
unconditionally — there is no local `academicLevel` check before the
POST — and the transmitted body carries the form's `academic_level`
verbatim; the only enumeration constraint is that the academic-level
`Select` offers exactly the three enumerated options. -/
theorem c8_no_local_validation_amended (s : AuthState) (fd : FormData) :
    handleSubmitRequest s fd = some (savePayload fd) ∧
      (savePayload fd).lookup "academic_level" = some (Value.str fd.academic_level) :=
  ⟨rfl, rfl⟩

/-- C9 (confirmed): the checkbox handlers implement idempotent set
operations on the selection.  Membership after checking (`true`, the
append branch) is membership-in-the-original or equality with the
value — so adding an already-present value changes no memberships —
and membership after unchecking (`false`, the filter branch) is
membership minus the value — so removing an absent value changes
nothing; and a double click restores exactly the original
memberships. -/
theorem c9_toggle_set_semantics (l : List String) (v x : String) :
    (x ∈ toggleClick (toggleClick l v) v ↔ x ∈ l) ∧
      (x ∈ toggleValue l v true ↔ (x ∈ l ∨ x = v)) ∧
      (x ∈ toggleValue l v false ↔ (x ∈ l ∧ x ≠ v)) := by
  refine ⟨?_, by simp [toggleValue], by simp [toggleValue, List.mem_filter]⟩
  by_cases hv : v ∈ l
  · have hc : l.contains v = true := by simpa using hv
    have hct : (l.filter (fun i => i != v)).contains v = false := by simp
    simp only [toggleClick, toggleValue, hc, hct, Bool.not_true, Bool.not_false,
      if_true, if_false, Bool.false_eq_true, ite_false, ite_true]
    simp only [List.mem_append, List.mem_filter, bne_iff_ne, ne_eq, List.mem_singleton]
    constructor
    · rintro (⟨hx, _⟩ | rfl)
      · exact hx
      · exact hv
    · intro hx
      by_cases hxv : x = v
      · exact Or.inr hxv
      · exact Or.inl ⟨hx, hxv⟩
  · have hc : l.contains v = false := by simpa using hv
    have hc2 : (l ++ [v]).contains v = true := by simp
    simp only [toggleClick, toggleValue, hc, hc2, Bool.not_true, Bool.not_false,
      if_true, if_false, Bool.false_eq_true, ite_false, ite_true]
    simp only [List.mem_filter, List.mem_append, bne_iff_ne, ne_eq, List.mem_singleton]
    constructor
    · rintro ⟨hx | rfl, hxv⟩
      · exact hx
      · exact absurd rfl hxv
    · intro hx
      refine ⟨Or.inl hx, ?_⟩
      rintro rfl
      exact hv hx

/-- C10 (confirmed): every save request body is the eight form fields
plus the constant `user_id: 'current_user'`; the body never depends on
the session (the handler ignores it), and the profile passed
downstream after a successful save is the bare form data, which
carries no `user_id` key at all. -/
theorem c10_save_payload_user_id (s1 s2 : AuthState) (fd : FormData) :
    handleSubmitRequest s1 fd = handleSubmitRequest s2 fd ∧
      (savePayload fd).lookup "user_id" = some (Value.str "current_user") ∧
      (profileAfterSave fd).lookup "user_id" = none ∧
      savePayload fd = formDataFields fd ++ [("user_id", Value.str "current_user")] :=
  ⟨rfl, rfl, rfl, rfl⟩

end CareerGenie
